import Mathlib

/-!
Verification development for the mcp-a2a-go repository.

The Go sources are shallowly embedded as executable Lean definitions:
machine integers become `Int`/`Nat`, Go `float64` money and score values
become `ℚ`, Go maps become association lists, fallible Go functions
return `Except String α`, and wall-clock instants are passed explicitly
as `Nat` arguments (`0` models the zero value of Go time.Time).  External
collaborators that the repository itself treats as out of scope (the
PostgreSQL ranking functions `ts_rank_cd` / `plainto_tsquery` and the
pgvector distance operator) are passed in as function parameters.
-/

namespace MCPA2A

/-! ## JSON-RPC 2.0 protocol layer (mcp-server/internal/protocol/jsonrpc.go) -/

def JSONRPCVersion : String := "2.0"

/-- Standard JSON-RPC error code constants, verbatim from the source. -/
def ParseError : Int := -32700

def InvalidRequest : Int := -32600

def MethodNotFound : Int := -32601

def InvalidParams : Int := -32602

def InternalError : Int := -32603

def ServerError : Int := -32000

/-- MCP-specific error code constants, verbatim from the source. -/
def AuthenticationRequired : Int := -32001

def AuthorizationFailed : Int := -32002

def RateLimitExceeded : Int := -32003

def ResourceNotFound : Int := -32004

def ValidationError : Int := -32005

/-- JSON-RPC error object (`protocol.Error`).  The free-form `data`
field is used by the rate limiter to carry `retry_after` seconds. -/
structure RpcError where
  code : Int
  message : String
  retryAfter : Option Nat := none
deriving DecidableEq, Repr

/-- `protocol.ContentBlock` of a tool call result. -/
structure ContentBlock where
  type : String
  text : String
deriving DecidableEq, Repr

/-- `protocol.ToolCallResult`. -/
structure ToolCallResult where
  content : List ContentBlock
  isError : Bool
deriving DecidableEq, Repr

/-- `protocol.Tool`: a registered tool definition (the JSON input schema
is kept as an opaque description string). -/
structure ToolDef where
  name : String
  description : String
deriving DecidableEq, Repr

/-- The possible `result` payloads of the three MCP methods. -/
inductive RpcResult where
  | initResult (protocolVersion serverName serverVersion : String) (listChanged : Bool)
  | toolsList (tools : List ToolDef)
  | toolCall (r : ToolCallResult)
deriving DecidableEq, Repr

/-- Decoded `tools/call` params (`protocol.ToolCallRequest`).  Arguments
are modelled as the decoded argument record used by the four tools. -/
structure ToolArgs where
  query : Option String := none
  limit : Option Int := none
  offset : Option Int := none
  documentId : Option String := none
  embedding : Option (List ℚ) := none
  bm25Weight : Option ℚ := none
  vectorWeight : Option ℚ := none
deriving DecidableEq

structure ToolCallRequest where
  name : String
  arguments : ToolArgs
deriving DecidableEq

/-- The lazily decoded `params` value of a request:  absent, a
`tools/call` envelope, or some other JSON value that fails to decode as
a `tools/call` envelope. -/
inductive RpcParams where
  | absent
  | toolCall (tc : ToolCallRequest)
  | malformed
deriving DecidableEq

/-- `protocol.Request`. -/
structure Request where
  jsonrpc : String
  id : Option String := none
  method : String
  params : RpcParams := .absent
deriving DecidableEq

/-- `protocol.Response`. -/
structure Response where
  jsonrpc : String := JSONRPCVersion
  id : Option String := none
  result : Option RpcResult := none
  error : Option RpcError := none
deriving DecidableEq, Repr

/-- `protocol.NewResponse`. -/
def NewResponse (id : Option String) (result : RpcResult) : Response :=
  { jsonrpc := JSONRPCVersion, id := id, result := some result }

/-- `protocol.NewErrorResponse`. -/
def NewErrorResponse (id : Option String) (code : Int) (message : String)
    (retryAfter : Option Nat := none) : Response :=
  { jsonrpc := JSONRPCVersion, id := id
    error := some { code := code, message := message, retryAfter := retryAfter } }

/-- `Request.Validate`: the envelope version must be exactly "2.0" and
the method non-empty. -/
def Request.validates (r : Request) : Bool :=
  r.jsonrpc == JSONRPCVersion && r.method != ""

/-! ## HTTP status selection (MCPHandler.sendResponse) -/

/-- The `switch response.Error.Code` of `MCPHandler.sendResponse`,
branch for branch in source order. -/
def errorHttpStatus (code : Int) : Nat :=
  if code = AuthenticationRequired ∨ code = AuthorizationFailed then 401
  else if code = RateLimitExceeded then 429
  else if code = ResourceNotFound then 404
  else if code = ValidationError then 400
  else if code = ParseError ∨ code = InvalidRequest ∨ code = MethodNotFound ∨
      code = InvalidParams ∨ code = InternalError ∨ code = ServerError then 200
  else 500

/-- `MCPHandler.sendResponse`: HTTP status written for a response. -/
def sendResponseStatus (r : Response) : Nat :=
  match r.error with
  | none => 200
  | some e => errorHttpStatus e.code

/-! ## Token validation (mcp-server/internal/auth/jwt.go) -/

/-- The claims extracted from a verified bearer token (`auth.Claims`,
restricted to the fields the server reads). -/
structure Claims where
  tenantId : String
  userId : String
  scopes : List String
deriving DecidableEq, Repr

/-- A parsed bearer token.  `wellFormedRSA` abstracts the outcome of
`jwt.ParseWithClaims` with the RSA key-function: the envelope parses,
the signing method is in the RSA family, and the signature verifies
under the public key of the validator. -/
structure Token where
  wellFormedRSA : Bool
  issuer : String
  audience : List String
  expiresAt : Option Int := none
  tenantId : String
  userId : String
  scopes : List String := []
deriving DecidableEq

/-- `auth.Config` / the fields of `auth.JWTValidator`. -/
structure ValidatorCfg where
  issuer : String
  audience : String
deriving DecidableEq

/-- `claims.ExpiresAt != nil && claims.ExpiresAt.Before(now)`. -/
def expiredAt (now : Int) : Option Int → Bool
  | some e => decide (e < now)
  | none => false

/-- `JWTValidator.ValidateToken`, check for check in source order:
parse/signature, issuer, audience membership, expiry
(`ExpiresAt != nil && ExpiresAt.Before(now)`), and the bare
non-emptiness test on `tenant_id`.  No other validation of the
`tenant_id` text is performed. -/
def validateToken (v : ValidatorCfg) (now : Int) (tok : Token) : Except String Claims :=
  if !tok.wellFormedRSA then .error "failed to parse token"
  else if tok.issuer ≠ v.issuer then .error "invalid issuer"
  else if !(tok.audience.contains v.audience) then .error "invalid audience"
  else if expiredAt now tok.expiresAt then .error "token expired"
  else if tok.tenantId = "" then .error "tenant_id claim is required"
  else .ok { tenantId := tok.tenantId, userId := tok.userId, scopes := tok.scopes }

/-- The request context after the middleware chain (`auth.WithAuth`
stores tenant, user and scopes; absent values model a context never
passed through `WithAuth`). -/
structure Ctx where
  tenant : Option String := none
  user : Option String := none
  scopes : List String := []
deriving DecidableEq

/-- `auth.WithAuth`. -/
def withAuth (c : Ctx) (cl : Claims) : Ctx :=
  { c with tenant := some cl.tenantId, user := some cl.userId, scopes := cl.scopes }

/-- `auth.ExtractTenantID`: fails when the context holds no tenant or an
empty tenant string. -/
def extractTenantID (c : Ctx) : Except String String :=
  match c.tenant with
  | some t => if t = "" then .error "tenant_id not found in context" else .ok t
  | none => .error "tenant_id not found in context"

/-! ## Tenant-scoped SQL session variable (database.SetTenantContext) -/

/-- The single-quote character, written by code point to keep source
text plain. -/
def squote : Char := Char.ofNat 39

def squoteStr : String := ⟨[squote]⟩

/-- `DB.SetTenantContext` builds its SQL by `fmt.Sprintf` on the raw
tenant string: `SET LOCAL app.current_tenant_id = <quote><tenantID><quote>` with no
parameter binding and no quoting/escaping of `tenantID`. -/
def setTenantContextQuery (tenantID : String) : String :=
  "SET LOCAL app.current_tenant_id = " ++ squoteStr ++ tenantID ++ squoteStr

/-! ## Rate limiter (mcp-server/internal/middleware/ratelimit.go) -/

/-- The external counter store: counters and TTLs by key.  TTLs are
recorded so that the conditional `Expire` call is observable. -/
structure RedisState where
  counters : List (String × Nat) := []
  ttls : List (String × Nat) := []
deriving DecidableEq

/-- Association-list update used to model Go map / Redis key writes. -/
def assocSet (l : List (String × Nat)) (k : String) (v : Nat) : List (String × Nat) :=
  if (l.lookup k).isSome then l.map (fun p => if p.1 = k then (k, v) else p)
  else (k, v) :: l

/-- Redis `INCR`: missing keys count as zero. -/
def redisIncr (st : RedisState) (key : String) : Nat × RedisState :=
  let c := ((st.counters.lookup key).getD 0) + 1
  (c, { st with counters := assocSet st.counters key c })

/-- Redis `EXPIRE` (seconds). -/
def redisExpire (st : RedisState) (key : String) (secs : Nat) : RedisState :=
  { st with ttls := assocSet st.ttls key secs }

/-- The window length: `rl.window = time.Minute`. -/
def rateWindowSecs : Nat := 60

/-- The key built by `RateLimiter.checkLimit`:
`fmt.Sprintf("ratelimit:%s:%d", tenantID, time.Now().Unix()/60)`. -/
def rateKey (tenantID : String) (nowSec : Nat) : String :=
  "ratelimit:" ++ tenantID ++ ":" ++ toString (nowSec / 60)

/-- `RateLimiter.checkLimit`: increment, set the TTL when the new count
is exactly 1, and allow when the count is at most the limit. -/
def checkLimit (st : RedisState) (tenantID : String) (nowSec : Nat) (limit : Nat) :
    Bool × RedisState :=
  let key := rateKey tenantID nowSec
  let (count, st1) := redisIncr st key
  let st2 := if count = 1 then redisExpire st1 key rateWindowSecs else st1
  (count ≤ limit, st2)

/-- The allowed/denied verdicts of `k` sequential `checkLimit` calls for
one tenant within one second (hence one window). -/
def allowedRun (st : RedisState) (tenantID : String) (nowSec : Nat) (limit : Nat) :
    Nat → List Bool
  | 0 => []
  | k + 1 =>
    let (b, st1) := checkLimit st tenantID nowSec limit
    b :: allowedRun st1 tenantID nowSec limit k

/-! ## Document store (mcp-server/internal/database) -/

/-- `database.Document` (the embedding vector itself lives in the
external engine; only its presence matters to the queries). -/
structure Doc where
  id : String
  tenantId : String
  title : String
  content : String
  metadataText : String := ""
  hasEmbedding : Bool := false
  createdAt : Nat := 0
deriving DecidableEq, Repr

/-- A database table of documents together with the engine-evaluated
scoring functions that the SQL invokes (`ts_rank_cd` over
`plainto_tsquery` of the current query, the `@@` match predicate, and
`1 - (embedding <=> $query)` cosine similarity).  These engine functions
are external collaborators and enter the model as parameters. -/
structure DbEnv where
  docs : List Doc
  textMatch : Doc → Bool
  bm25 : Doc → ℚ
  vecSim : Doc → ℚ

/-- Rows visible under row-level security once
`app.current_tenant_id = tenantID` is set. -/
def visibleDocs (env : DbEnv) (tenantID : String) : List Doc :=
  env.docs.filter (fun d => d.tenantId = tenantID)

/-- `DB.GetDocument`: `WHERE id = $1` over the RLS-visible rows;
`pgx.ErrNoRows` becomes the "document not found" error, covering both a
truly absent id and an id owned by another tenant. -/
def getDocument (env : DbEnv) (tenantID docID : String) : Except String Doc :=
  match (visibleDocs env tenantID).find? (fun d => d.id = docID) with
  | some d => .ok d
  | none => .error "document not found"

/-- Case-insensitive substring test over the character lists, modelling
SQL `ILIKE wildcard-pattern`. -/
def startsWithChars : List Char → List Char → Bool
  | _, [] => true
  | [], _ :: _ => false
  | c :: cs, d :: ds => c == d && startsWithChars cs ds

def hasSubChars (pat : List Char) : List Char → Bool
  | [] => startsWithChars [] pat
  | c :: cs => startsWithChars (c :: cs) pat || hasSubChars pat cs

def ilike (s pat : String) : Bool :=
  hasSubChars pat.toLower.toList s.toLower.toList

/-- Descending insertion sort by a rational score. -/
def rankedBy (f : Doc → ℚ) (l : List Doc) : List Doc :=
  l.insertionSort (fun a b => f b ≤ f a)

/-- `DB.SearchDocuments`: ILIKE over title, content and stringified
metadata, newest first, `LIMIT $2`. -/
def searchDocuments (env : DbEnv) (tenantID query : String) (limit : Int) : List Doc :=
  let hits := (visibleDocs env tenantID).filter
    (fun d => ilike d.title query || ilike d.content query || ilike d.metadataText query)
  ((hits.insertionSort (fun a b => b.createdAt ≤ a.createdAt)).take limit.toNat)

/-- `DB.ListDocuments`: newest first, `LIMIT $1 OFFSET $2`. -/
def listDocuments (env : DbEnv) (tenantID : String) (limit offset : Int) : List Doc :=
  (((visibleDocs env tenantID).insertionSort (fun a b => b.createdAt ≤ a.createdAt)).drop
      offset.toNat).take limit.toNat

/-! ## Hybrid search (mcp-server/internal/database/hybrid_search.go) -/

/-- `database.HybridSearchParams` (the query text and embedding vector
are consumed by the engine-score parameters of `DbEnv`). -/
structure HybridSearchParams where
  limit : Int
  bm25Weight : ℚ
  vectorWeight : ℚ
  minBM25Score : ℚ := 0
  minVectorSim : ℚ := 0
deriving DecidableEq

/-- The weight normalization both variants perform: `(0, 0)` becomes
`(1/2, 1/2)`, anything else is scaled to sum to one. -/
def normWeights (w1 w2 : ℚ) : ℚ × ℚ :=
  if w1 + w2 = 0 then (1/2, 1/2) else (w1 / (w1 + w2), w2 / (w1 + w2))

/-- The limit normalization both variants perform: non-positive limits
become the default 10. -/
def normLimit (limit : Int) : Nat :=
  if limit ≤ 0 then 10 else limit.toNat

/-- The `bm25_results` CTE of `DB.HybridSearch`: every row matching the
text query, ranked by descending `ts_rank_cd` (`ROW_NUMBER` = position).
The CTE has no `LIMIT` clause. -/
def bm25Results (env : DbEnv) (tenantID : String) : List Doc :=
  rankedBy env.bm25 ((visibleDocs env tenantID).filter env.textMatch)

/-- The `vector_results` CTE of `DB.HybridSearch`: every row with an
embedding, ranked by ascending distance (descending similarity).  The
CTE has no `LIMIT` clause. -/
def vectorResults (env : DbEnv) (tenantID : String) : List Doc :=
  rankedBy env.vecSim ((visibleDocs env tenantID).filter (fun d => d.hasEmbedding))

/-- One-based rank of a document id within a ranked list (`ROW_NUMBER`),
`none` when the row is absent from that side of the join. -/
def rankOf (l : List Doc) (docID : String) : Option Nat :=
  (l.findIdx? (fun d => d.id = docID)).map (· + 1)

/-- A row of the `combined` CTE. -/
structure HybridRow where
  doc : Doc
  bm25Score : ℚ
  vectorScore : ℚ
  combinedScore : ℚ
deriving DecidableEq

/-- `DB.HybridSearch` (reciprocal-rank fusion): full outer join of the
two ranked CTEs on id, `COALESCE`d scores, RRF combined score with
constant 60, the `WHERE` threshold filter, descending order by combined
score, and the single final `LIMIT`. -/
def hybridSearch (env : DbEnv) (tenantID : String) (p : HybridSearchParams) :
    List HybridRow :=
  let w := normWeights p.bm25Weight p.vectorWeight
  let bl := bm25Results env tenantID
  let vl := vectorResults env tenantID
  let joined := bl ++ vl.filter (fun v => !(bl.any (fun b => b.id = v.id)))
  let rows := joined.map (fun d =>
    let bs : ℚ := if (rankOf bl d.id).isSome then env.bm25 d else 0
    let vs : ℚ := if (rankOf vl d.id).isSome then env.vecSim d else 0
    let rrf : ℚ :=
      (match rankOf bl d.id with
        | some r => (1 / (60 + (r : ℚ))) * w.1
        | none => 0) +
      (match rankOf vl d.id with
        | some r => (1 / (60 + (r : ℚ))) * w.2
        | none => 0)
    { doc := d, bm25Score := bs, vectorScore := vs, combinedScore := rrf })
  let filtered := rows.filter
    (fun r => p.minBM25Score ≤ r.bm25Score || p.minVectorSim ≤ r.vectorScore)
  (filtered.insertionSort (fun a b => b.combinedScore ≤ a.combinedScore)).take
    (normLimit p.limit)

/-- `DB.SimpleHybridSearch` (weighted score fusion): a single pass over
the table; candidate rows match the text query or clear the vector
similarity threshold, the combined score is the weighted sum with a zero
vector contribution for rows lacking an embedding, and only the final
result carries a `LIMIT`. -/
def simpleHybridSearch (env : DbEnv) (tenantID : String) (p : HybridSearchParams) :
    List HybridRow :=
  let w := normWeights p.bm25Weight p.vectorWeight
  let cand := (visibleDocs env tenantID).filter
    (fun d => env.textMatch d || (d.hasEmbedding && decide (p.minVectorSim ≤ env.vecSim d)))
  let rows := cand.map (fun d =>
    let bs := env.bm25 d
    let vs : ℚ := if d.hasEmbedding then env.vecSim d else 0
    { doc := d, bm25Score := bs, vectorScore := vs
      combinedScore := bs * w.1 + (if d.hasEmbedding then env.vecSim d * w.2 else 0) })
  (rows.insertionSort (fun a b => b.combinedScore ≤ a.combinedScore)).take
    (normLimit p.limit)

/-! ## Tools (mcp-server/internal/tools).  Result text is summarised:
the claims under verification inspect structure (success/error, codes,
lengths), never the human-readable formatting. -/

def summaryBlock (text : String) : ToolCallResult :=
  { content := [{ type := "text", text := text }], isError := false }

/-- `SearchTool.Execute`: tenant from context, `query` required, limit
defaulted to 10 and clamped to 100, then `DB.SearchDocuments`. -/
def searchToolExecute (env : DbEnv) (ctx : Ctx) (args : ToolArgs) :
    Except String ToolCallResult :=
  match extractTenantID ctx with
  | .error e => .error ("authentication required: " ++ e)
  | .ok tenantID =>
    let q := (args.query).getD ""
    if q = "" then .error "query is required"
    else
      let l0 := (args.limit).getD 0
      let l1 := if l0 ≤ 0 then 10 else l0
      let l2 := if 100 < l1 then 100 else l1
      let docs := searchDocuments env tenantID q l2
      .ok (summaryBlock ("found " ++ toString docs.length ++ " document(s)"))

/-- `RetrieveTool.Execute`: tenant from context (wrapped as
"authentication required" on failure), a required non-empty
`document_id` argument, then `DB.GetDocument`, whose failure — absent
id or foreign tenant — is returned as the wrapped
"failed to retrieve document" Go error. -/
def retrieveToolExecute (env : DbEnv) (ctx : Ctx) (args : ToolArgs) :
    Except String ToolCallResult :=
  match extractTenantID ctx with
  | .error e => .error ("authentication required: " ++ e)
  | .ok tenantID =>
    let docID := (args.documentId).getD ""
    if docID = "" then .error "document_id is required"
    else
      match getDocument env tenantID docID with
      | .error e => .error ("failed to retrieve document: " ++ e)
      | .ok d => .ok (summaryBlock ("Document Retrieved: " ++ d.id))

/-- `ListTool.Execute`: limit defaulted to 20 and clamped to 100,
negative offsets clamped to 0, then `DB.ListDocuments`. -/
def listToolExecute (env : DbEnv) (ctx : Ctx) (args : ToolArgs) :
    Except String ToolCallResult :=
  match extractTenantID ctx with
  | .error e => .error ("authentication required: " ++ e)
  | .ok tenantID =>
    let l0 := (args.limit).getD 0
    let l1 := if l0 ≤ 0 then 20 else l0
    let l2 := if 100 < l1 then 100 else l1
    let o0 := (args.offset).getD 0
    let o1 := if o0 < 0 then 0 else o0
    let docs := listDocuments env tenantID l2 o1
    .ok (summaryBlock ("found " ++ toString docs.length ++ " document(s)"))

/-- `HybridSearchTool.Execute`: `query` required, limit defaulted to 10
and clamped to 50, the `(0, 0)` weight pair replaced by `(1/2, 1/2)`,
zero score thresholds, then `DB.SimpleHybridSearch`. -/
def hybridToolExecute (env : DbEnv) (ctx : Ctx) (args : ToolArgs) :
    Except String ToolCallResult :=
  match extractTenantID ctx with
  | .error e => .error ("authentication required: " ++ e)
  | .ok tenantID =>
    let q := (args.query).getD ""
    if q = "" then .error "query is required"
    else
      let l0 := (args.limit).getD 0
      let l1 := if l0 ≤ 0 then 10 else l0
      let l2 := if 50 < l1 then 50 else l1
      let w1 := (args.bm25Weight).getD 0
      let w2 := (args.vectorWeight).getD 0
      let wp := if w1 = 0 ∧ w2 = 0 then ((1 : ℚ)/2, (1 : ℚ)/2) else (w1, w2)
      let rows := simpleHybridSearch env tenantID
        { limit := l2, bm25Weight := wp.1, vectorWeight := wp.2
          minBM25Score := 0, minVectorSim := 0 }
      .ok (summaryBlock ("found " ++ toString rows.length ++ " result(s)"))

/-- The tool definitions registered by the server entry point, in
registration order (`search_documents`, `retrieve_document`,
`list_documents`, `hybrid_search`). -/
def registeredToolDefs : List ToolDef :=
  [ { name := "search_documents", description := "Search documents by text query" }
  , { name := "retrieve_document", description := "Retrieve a document by ID" }
  , { name := "list_documents", description := "List documents with pagination" }
  , { name := "hybrid_search", description := "Hybrid BM25 plus vector search" } ]

/-- `Registry.Execute` over the four registered tools: name lookup, then
the tool body; unknown names yield the "tool not found" error. -/
def registryExecute (env : DbEnv) (ctx : Ctx) (name : String) (args : ToolArgs) :
    Except String ToolCallResult :=
  if name = "search_documents" then searchToolExecute env ctx args
  else if name = "retrieve_document" then retrieveToolExecute env ctx args
  else if name = "list_documents" then listToolExecute env ctx args
  else if name = "hybrid_search" then hybridToolExecute env ctx args
  else .error ("tool not found: " ++ name)

/-! ## MCP request handling (mcp-server/internal/server/mcp_handler.go) -/

/-- `Request.ParseParams` into `protocol.ToolCallRequest`: absent params
leave the zero value, undecodable JSON errors. -/
def parseToolCallParams : RpcParams → Except String ToolCallRequest
  | .absent => .ok { name := "", arguments := {} }
  | .toolCall tc => .ok tc
  | .malformed => .error "failed to parse params"

def MCPProtocolVersion : String := "2024-11-05"

def ServerName : String := "mcp-rag-server"

def ServerVersion : String := "1.0.0"

/-- `MCPHandler.handleInitialize` (undecodable params yield invalid
params; otherwise the fixed server identity result). -/
def handleInit (req : Request) : Response :=
  match req.params with
  | .malformed => NewErrorResponse req.id InvalidParams "Invalid params"
  | _ => NewResponse req.id (.initResult MCPProtocolVersion ServerName ServerVersion false)

/-- `MCPHandler.handleToolsList`. -/
def handleToolsList (req : Request) : Response :=
  NewResponse req.id (.toolsList registeredToolDefs)

/-- `MCPHandler.handleToolsCall`: parse the envelope (invalid params on
failure), execute through the registry, and wrap any execution error as
an internal error. -/
def handleToolsCall (env : DbEnv) (ctx : Ctx) (req : Request) : Response :=
  match parseToolCallParams req.params with
  | .error e => NewErrorResponse req.id InvalidParams ("Invalid tool call params: " ++ e)
  | .ok tc =>
    match registryExecute env ctx tc.name tc.arguments with
    | .error e => NewErrorResponse req.id InternalError ("Tool execution failed: " ++ e)
    | .ok r => NewResponse req.id (.toolCall r)

/-- `MCPHandler.handleRequest`: the three-way method dispatch. -/
def handleRequest (env : DbEnv) (ctx : Ctx) (req : Request) : Response :=
  if req.method = "initialize" then handleInit req
  else if req.method = "tools/list" then handleToolsList req
  else if req.method = "tools/call" then handleToolsCall env ctx req
  else NewErrorResponse req.id MethodNotFound ("Method not found: " ++ req.method)

/-- `MCPHandler.ServeHTTP` after body parse: envelope validation, then
dispatch; the HTTP status is chosen by `sendResponse`. -/
def mcpHandle (env : DbEnv) (ctx : Ctx) (req : Request) : Response :=
  if !req.validates then NewErrorResponse req.id InvalidRequest "invalid request"
  else handleRequest env ctx req

/-- Outcome of the full `/mcp` middleware stack on one request. -/
structure ServeOut where
  status : Nat
  resp : Response
  redis : RedisState
deriving DecidableEq

/-- The `/mcp` stack as wired in the server entry point:
`tracing (no-op) -> AuthMiddleware.OptionalHandler ->
RateLimiter.Handler -> MCPHandler`.  `hdr = none` models a request with
no `Authorization` header, which `OptionalHandler` forwards without an
auth context; a present but invalid token is answered directly with the
authentication error of the middleware at HTTP 401.  The rate limiter skips
requests whose context carries no tenant. -/
def mcpServe (env : DbEnv) (v : ValidatorCfg) (limit : Nat) (st : RedisState)
    (now : Nat) (hdr : Option Token) (req : Request) : ServeOut :=
  let inner : Ctx → RedisState → ServeOut := fun ctx st0 =>
    match extractTenantID ctx with
    | .error _ =>
      let resp := mcpHandle env ctx req
      { status := sendResponseStatus resp, resp := resp, redis := st0 }
    | .ok tenantID =>
      let r := checkLimit st0 tenantID now limit
      if !r.1 then
        { status := 429
          resp := NewErrorResponse none RateLimitExceeded
            "Rate limit exceeded for tenant" (some rateWindowSecs)
          redis := r.2 }
      else
        let resp := mcpHandle env ctx req
        { status := sendResponseStatus resp, resp := resp, redis := r.2 }
  match hdr with
  | none => inner {} st
  | some tok =>
    match validateToken v (now : Int) tok with
    | .ok cl => inner (withAuth {} cl) st
    | .error e =>
      { status := 401
        resp := NewErrorResponse none AuthenticationRequired ("Invalid token: " ++ e)
        redis := st }

/-! ## Task protocol (a2a-server/internal/protocol/types.go) -/

inductive TaskState where
  | pending
  | running
  | completed
  | failed
  | cancelled
deriving DecidableEq, Repr

/-- `TaskState.IsTerminal`. -/
def TaskState.isTerminal : TaskState → Bool
  | .completed => true
  | .failed => true
  | .cancelled => true
  | _ => false

/-- `protocol.Task`.  Timestamps are `Nat` seconds with `0` standing for
the zero value of Go time.Time; the result payload is tracked by presence. -/
structure Task where
  id : String
  agentId : String
  capability : String
  state : TaskState
  errMsg : String := ""
  hasResult : Bool := false
  createdAt : Nat := 0
  updatedAt : Nat := 0
  completedAt : Nat := 0
deriving DecidableEq, Repr

/-- `protocol.NewTask` (the generated UUID is passed in). -/
def newTask (id agentID capability : String) (now : Nat) : Task :=
  { id := id, agentId := agentID, capability := capability, state := .pending
    createdAt := now, updatedAt := now }

/-- `Task.UpdateState`. -/
def Task.updateState (t : Task) (s : TaskState) (now : Nat) : Task :=
  { t with state := s, updatedAt := now }

/-- `Task.SetResult`. -/
def Task.setResult (t : Task) (now : Nat) : Task :=
  { t with hasResult := true, state := .completed, completedAt := now, updatedAt := now }

/-- `Task.SetError`. -/
def Task.setError (t : Task) (e : String) (now : Nat) : Task :=
  { t with errMsg := e, state := .failed, completedAt := now, updatedAt := now }

/-- `Task.Cancel`. -/
def Task.cancel (t : Task) (reason : String) (now : Nat) : Task :=
  { t with errMsg := reason, state := .cancelled, completedAt := now, updatedAt := now }

/-- `protocol.TaskEvent`. -/
structure TaskEvent where
  taskId : String
  state : TaskState
  message : String := ""
  timestamp : Nat := 0
deriving DecidableEq, Repr

/-! ## Task store (a2a-server/internal/tasks/store.go) -/

/-- `tasks.MemoryStore`: the task map as an association list (subscriber
channels are per-connection and play no role in the stored record). -/
structure MemoryStore where
  tasks : List (String × Task) := []
deriving DecidableEq

/-- Go map write `m[k] = v` at a key known to be present. -/
def assocReplace {β : Type} (l : List (String × β)) (k : String) (v : β) :
    List (String × β) :=
  l.map (fun p => if p.1 = k then (k, v) else p)

/-- `MemoryStore.Create`: duplicate ids are rejected. -/
def storeCreate (s : MemoryStore) (t : Task) : Except String MemoryStore :=
  if (s.tasks.lookup t.id).isSome then .error ("task " ++ t.id ++ " already exists")
  else .ok { tasks := (t.id, t) :: s.tasks }

/-- `MemoryStore.Get`. -/
def storeGet (s : MemoryStore) (id : String) : Except String Task :=
  match s.tasks.lookup id with
  | some t => .ok t
  | none => .error ("task " ++ id ++ " not found")

/-- `MemoryStore.Update`: the only check is that the id exists; the
stored record is then replaced by the argument unconditionally. -/
def storeUpdate (s : MemoryStore) (t : Task) : Except String MemoryStore :=
  if (s.tasks.lookup t.id).isSome then .ok { tasks := assocReplace s.tasks t.id t }
  else .error ("task " ++ t.id ++ " not found")

/-! ## Background processor (a2a-server/internal/server/processor.go) -/

/-- `task.ID[0]%10 != 0`: the simulated success predicate on the first
byte of the id (ids are ASCII UUIDs, where the first byte is the code
of the first character). -/
def successOf (id : String) : Bool :=
  match id.data with
  | [] => false
  | c :: _ => c.toNat % 10 ≠ 0

/-- Outcome of one simulated task execution.  `panicked` records a Go
runtime panic; the events published before the panic are kept, since
subscribers already received them. -/
structure ProcessOutcome where
  store : MemoryStore
  events : List TaskEvent
  panicked : Bool
deriving DecidableEq

/-- `TaskProcessor.processTask`: transition to running at `t1`,
publishing a running event; then the started `log.Printf` slices
`task.ID[:8]`, which panics for ids shorter than 8 bytes (real ids are
36-byte UUIDs); then at `t2` either `SetResult` + completed event or
`SetError` + failed event.  All published `TaskEvent` literals omit the
`Timestamp` field, so the events carry the zero time. -/
def processTask (s : MemoryStore) (t : Task) (t1 t2 : Nat) : ProcessOutcome :=
  let tRun := t.updateState .running t1
  match storeUpdate s tRun with
  | .error _ => { store := s, events := [], panicked := false }
  | .ok s1 =>
    let evRun : TaskEvent := { taskId := t.id, state := .running, message := "Task started" }
    if t.id.utf8ByteSize < 8 then { store := s1, events := [evRun], panicked := true }
    else if successOf t.id then
      let tDone := tRun.setResult t2
      match storeUpdate s1 tDone with
      | .error _ => { store := s1, events := [evRun], panicked := false }
      | .ok s2 =>
        { store := s2
          events := [evRun,
            { taskId := t.id, state := .completed, message := "Task completed successfully" }]
          panicked := false }
    else
      let tFail := tRun.setError "Simulated task failure" t2
      match storeUpdate s1 tFail with
      | .error _ => { store := s1, events := [evRun], panicked := false }
      | .ok s2 =>
        { store := s2
          events := [evRun, { taskId := t.id, state := .failed, message := "Task failed" }]
          panicked := false }

/-! ## Budget manager (a2a-server/internal/cost/budget.go) -/

/-- `cost.Budget`; Go float64 dollars become `ℚ`. -/
structure Budget where
  userId : String
  monthlyLimit : ℚ
  currentSpend : ℚ
  resetAt : Nat := 0
deriving DecidableEq

/-- `Budget.CheckBudget`. -/
def checkBudget (b : Budget) (cost : ℚ) : Bool :=
  decide (b.currentSpend + cost ≤ b.monthlyLimit)

/-- `Budget.UpdateSpend`. -/
def updateSpend (b : Budget) (cost : ℚ) : Budget :=
  { b with currentSpend := b.currentSpend + cost }

abbrev Budgets := List (String × Budget)

/-- `BudgetManager.CheckAndUpdate`: under the mutex of the manager, look the
budget up (error when absent), deny without mutation when
`CheckBudget` fails, otherwise add the cost and allow. -/
def checkAndUpdate (budgets : Budgets) (userID : String) (cost : ℚ) :
    Except String (Bool × Budgets) :=
  match budgets.lookup userID with
  | none => .error ("budget for user " ++ userID ++ " not found")
  | some b =>
    if checkBudget b cost then
      .ok (true, assocReplace budgets userID (updateSpend b cost))
    else
      .ok (false, budgets)

/-! ## Task service HTTP handlers (a2a-server/internal/server/handlers.go) -/

/-- `server.CreateTaskRequest`. -/
structure CreateTaskReq where
  userId : String
  agentId : String
  capability : String
deriving DecidableEq

/-- The state a create/cancel handler touches. -/
structure A2AState where
  agents : List String
  budgets : Budgets
  tasks : MemoryStore
deriving DecidableEq

/-- The fixed per-task estimate in `handleCreateTask`: `$0.01`. -/
def estimatedCost : ℚ := 1 / 100

/-- `Server.handleCreateTask` after body decode: agent lookup (404),
budget `CheckAndUpdate` (400 when unconfigured, 402 when denied) and
only then `MemoryStore.Create` (500 on failure, else 201).  Returns the
HTTP status and the state after the handler. -/
def handleCreateTask (st : A2AState) (req : CreateTaskReq) (newId : String) (now : Nat) :
    Nat × A2AState :=
  if !(st.agents.contains req.agentId) then (404, st)
  else
    match checkAndUpdate st.budgets req.userId estimatedCost with
    | .error _ => (400, st)
    | .ok (allowed, budgets1) =>
      if !allowed then (402, { st with budgets := budgets1 })
      else
        let task := newTask newId req.agentId req.capability now
        match storeCreate st.tasks task with
        | .error _ => (500, { st with budgets := budgets1 })
        | .ok tasks1 => (201, { st with budgets := budgets1, tasks := tasks1 })

/-- `Server.handleCancelTask`: 404 when absent, 409 on a terminal task,
otherwise `Task.Cancel` + `Update` + one cancelled event whose
`Timestamp` field is again left at the zero time. -/
def handleCancelTask (st : A2AState) (taskID : String) (now : Nat) :
    Nat × A2AState × List TaskEvent :=
  match storeGet st.tasks taskID with
  | .error _ => (404, st, [])
  | .ok task =>
    if task.state.isTerminal then (409, st, [])
    else
      let t1 := task.cancel "Cancelled by user" now
      match storeUpdate st.tasks t1 with
      | .error _ => (500, st, [])
      | .ok tasks1 =>
        (200, { st with tasks := tasks1 },
          [{ taskId := taskID, state := .cancelled, message := "Task cancelled" }])

/-! ## Helper lemmas -/

theorem lookup_assocReplace {β : Type} (l : List (String × β)) (u : String) (v : β)
    (h : (l.lookup u).isSome) : (assocReplace l u v).lookup u = some v := by
  induction l with
  | nil => simp [List.lookup] at h
  | cons p t ih =>
    rcases p with ⟨k, w⟩
    by_cases hk : k = u
    · subst hk
      simp only [assocReplace, List.map_cons, if_true]
      simp [List.lookup]
    · have hbk : (u == k) = false := beq_eq_false_iff_ne.mpr (Ne.symm hk)
      simp only [assocReplace, List.map_cons, if_neg hk] at *
      simp only [List.lookup, hbk] at h ⊢
      exact ih h

/-! ## C2: HTTP status is a function of the error code -/

/-- C2: for every JSON-RPC response carrying a non-nil error, the HTTP
status written by `sendResponse` is determined exactly by the error
code: 200 for the six protocol codes, 401 for the two auth codes, 429
for rate limit, 404 for resource not found, 400 for validation, and 500
for any other code. -/
theorem c2_http_status_mapping (r : Response) (e : RpcError) (h : r.error = some e) :
    ((e.code = -32700 ∨ e.code = -32600 ∨ e.code = -32601 ∨ e.code = -32602 ∨
        e.code = -32603 ∨ e.code = -32000) → sendResponseStatus r = 200) ∧
    ((e.code = -32001 ∨ e.code = -32002) → sendResponseStatus r = 401) ∧
    (e.code = -32003 → sendResponseStatus r = 429) ∧
    (e.code = -32004 → sendResponseStatus r = 404) ∧
    (e.code = -32005 → sendResponseStatus r = 400) ∧
    (¬(e.code = -32700 ∨ e.code = -32600 ∨ e.code = -32601 ∨ e.code = -32602 ∨
        e.code = -32603 ∨ e.code = -32000 ∨ e.code = -32001 ∨ e.code = -32002 ∨
        e.code = -32003 ∨ e.code = -32004 ∨ e.code = -32005) →
      sendResponseStatus r = 500) := by
  simp only [sendResponseStatus, h]
  refine ⟨?_, ?_, ?_, ?_, ?_, ?_⟩
  · rintro (hc | hc | hc | hc | hc | hc) <;> rw [hc] <;> decide
  · rintro (hc | hc) <;> rw [hc] <;> decide
  · intro hc
    rw [hc]
    decide
  · intro hc
    rw [hc]
    decide
  · intro hc
    rw [hc]
    decide
  · intro hn
    unfold errorHttpStatus AuthenticationRequired AuthorizationFailed RateLimitExceeded
      ResourceNotFound ValidationError ParseError InvalidRequest MethodNotFound
      InvalidParams InternalError ServerError
    split_ifs with h1 h2 h3 h4 h5 <;> tauto

/-- C2 witness at a concrete rate-limit error response. -/
theorem c2_witness :
    sendResponseStatus (NewErrorResponse none (-32003) "Rate limit exceeded") = 429 :=
  (c2_http_status_mapping (NewErrorResponse none (-32003) "Rate limit exceeded")
    { code := -32003, message := "Rate limit exceeded" } rfl).2.2.1 rfl

/-! ## C4: budget check-and-update -/

/-- C4: for every user with a configured budget, `CheckAndUpdate`
returns allowed and adds exactly the cost to the current spend when
`current_spend + cost ≤ monthly_limit` (a cost landing exactly on the
limit is admitted), and otherwise returns denied leaving the budgets
untouched; the check and the update are one atomic step of the model,
mirroring the single mutex-guarded critical section of the source. -/
theorem c4_check_and_update (budgets : Budgets) (u : String) (cost : ℚ) (b : Budget)
    (h : budgets.lookup u = some b) :
    (b.currentSpend + cost ≤ b.monthlyLimit →
      checkAndUpdate budgets u cost =
        .ok (true, assocReplace budgets u (updateSpend b cost)) ∧
      (assocReplace budgets u (updateSpend b cost)).lookup u =
        some { b with currentSpend := b.currentSpend + cost }) ∧
    (¬(b.currentSpend + cost ≤ b.monthlyLimit) →
      checkAndUpdate budgets u cost = .ok (false, budgets)) := by
  constructor
  · intro hle
    constructor
    · simp [checkAndUpdate, h, checkBudget, hle]
    · exact lookup_assocReplace budgets u (updateSpend b cost) (by simp [h])
  · intro hgt
    simp [checkAndUpdate, h, checkBudget, hgt]

/-- C4 witness: with limit 0.02 and spend 0.01, a cost of 0.01 lands
exactly on the limit and is admitted, updating the spend to 0.02. -/
theorem c4_witness :
    checkAndUpdate [("u", { userId := "u", monthlyLimit := 2/100, currentSpend := 1/100 })]
        "u" (1/100) =
      .ok (true, assocReplace
        [("u", { userId := "u", monthlyLimit := 2/100, currentSpend := 1/100 })] "u"
        (updateSpend { userId := "u", monthlyLimit := 2/100, currentSpend := 1/100 } (1/100))) :=
  ((c4_check_and_update
      [("u", { userId := "u", monthlyLimit := 2/100, currentSpend := 1/100 })] "u" (1/100)
      { userId := "u", monthlyLimit := 2/100, currentSpend := 1/100 }
      rfl).1 (by norm_num)).1

/-! ## C10: tenant claim flows verbatim into SQL text -/

theorem string_data_append (s t : String) : (s ++ t).data = s.data ++ t.data := by
  cases s
  cases t
  rfl

/-- C10: `ValidateToken` accepts any token passing the signature,
issuer, audience and expiry checks whose `tenant_id` is a non-empty
string — there is no UUID-syntax check — and `SetTenantContext`
splices that string verbatim between two single quotes in the
`SET LOCAL app.current_tenant_id` command, adding exactly two quote
characters and escaping nothing, so a tenant string containing a single
quote flows unescaped into the SQL text (see the witness). -/
theorem c10_tenant_sql_interpolation (v : ValidatorCfg) (now : Int) (tok : Token)
    (hwf : tok.wellFormedRSA = true) (hiss : tok.issuer = v.issuer)
    (haud : tok.audience.contains v.audience = true)
    (hexp : expiredAt now tok.expiresAt = false) (hten : tok.tenantId ≠ "") :
    validateToken v now tok =
      .ok { tenantId := tok.tenantId, userId := tok.userId, scopes := tok.scopes } ∧
    setTenantContextQuery tok.tenantId =
      "SET LOCAL app.current_tenant_id = " ++ squoteStr ++ tok.tenantId ++ squoteStr ∧
    (setTenantContextQuery tok.tenantId).data.count squote =
      tok.tenantId.data.count squote + 2 := by
  refine ⟨?_, rfl, ?_⟩
  · have haud2 : v.audience ∈ tok.audience := by
      simpa using haud
    simp [validateToken, hwf, hiss, haud2, hexp, hten]
  · have hpre : ("SET LOCAL app.current_tenant_id = " : String).data.count squote = 0 := by
      decide
    have hq : (squoteStr.data.count squote) = 1 := by
      decide
    simp only [setTenantContextQuery, string_data_append, List.count_append, hpre, hq]
    omega

/-- C10 witness: a concrete accepted token whose tenant claim contains a
single quote; the resulting SQL text carries that interior quote plus
the two delimiters, unescaped. -/
theorem c10_witness :
    validateToken { issuer := "iss", audience := "aud" } 0
        { wellFormedRSA := true, issuer := "iss", audience := ["aud"]
          tenantId := "x" ++ squoteStr ++ "y", userId := "u" } =
      .ok { tenantId := "x" ++ squoteStr ++ "y", userId := "u", scopes := [] } ∧
    ("x" ++ squoteStr ++ "y").data.count squote = 1 ∧
    (setTenantContextQuery ("x" ++ squoteStr ++ "y")).data.count squote = 1 + 2 := by
  refine ⟨?_, by decide, ?_⟩
  · exact (c10_tenant_sql_interpolation { issuer := "iss", audience := "aud" } 0
      { wellFormedRSA := true, issuer := "iss", audience := ["aud"]
        tenantId := "x" ++ squoteStr ++ "y", userId := "u" }
      rfl rfl (by decide) rfl (by decide)).1
  · have h := (c10_tenant_sql_interpolation { issuer := "iss", audience := "aud" } 0
      { wellFormedRSA := true, issuer := "iss", audience := ["aud"]
        tenantId := "x" ++ squoteStr ++ "y", userId := "u" }
      rfl rfl (by decide) rfl (by decide)).2.2
    simpa using h

/-! ## C5: budget denial happens before task creation -/

/-- C5: for every `POST /tasks` request whose budget check is denied,
the handler answers HTTP 402 and returns the state unchanged — the
reservation is taken before `MemoryStore.Create` runs, so no task
record is created and a subsequent `Get` of the would-be id still fails
exactly as before the request. -/
theorem c5_denied_creates_nothing (st : A2AState) (req : CreateTaskReq)
    (newId : String) (now : Nat) (b : Budget)
    (hagent : st.agents.contains req.agentId = true)
    (hb : st.budgets.lookup req.userId = some b)
    (hden : ¬(b.currentSpend + estimatedCost ≤ b.monthlyLimit)) :
    handleCreateTask st req newId now = (402, st) ∧
    (st.tasks.tasks.lookup newId = none →
      storeGet (handleCreateTask st req newId now).2.tasks newId =
        .error ("task " ++ newId ++ " not found")) := by
  have hmain : handleCreateTask st req newId now = (402, st) := by
    have hagent2 : req.agentId ∈ st.agents := by
      simpa using hagent
    simp [handleCreateTask, hagent2, checkAndUpdate, hb, checkBudget, hden]
  refine ⟨hmain, ?_⟩
  intro habs
  rw [hmain]
  simp [storeGet, habs]

/-- C5 witness (scenario E5): a user whose spend already sits at the
0.02 limit is denied a third 0.01-cost task with HTTP 402, and the
empty task store still holds no record for the new id. -/
theorem c5_witness :
    handleCreateTask
        { agents := ["agent"]
          budgets := [("u", { userId := "u", monthlyLimit := 2/100, currentSpend := 2/100 })]
          tasks := {} }
        { userId := "u", agentId := "agent", capability := "search" } "t3" 7 =
      (402,
        { agents := ["agent"]
          budgets := [("u", { userId := "u", monthlyLimit := 2/100, currentSpend := 2/100 })]
          tasks := {} }) ∧
    storeGet (handleCreateTask
        { agents := ["agent"]
          budgets := [("u", { userId := "u", monthlyLimit := 2/100, currentSpend := 2/100 })]
          tasks := {} }
        { userId := "u", agentId := "agent", capability := "search" } "t3" 7).2.tasks "t3" =
      .error ("task " ++ "t3" ++ " not found") := by
  have h := c5_denied_creates_nothing
    { agents := ["agent"]
      budgets := [("u", { userId := "u", monthlyLimit := 2/100, currentSpend := 2/100 })]
      tasks := {} }
    { userId := "u", agentId := "agent", capability := "search" } "t3" 7
    { userId := "u", monthlyLimit := 2/100, currentSpend := 2/100 }
    (by decide) rfl (by norm_num [estimatedCost])
  exact ⟨h.1, h.2 rfl⟩

/-! ## C3: the task store performs no transition validation -/

/-- A stored task already in the terminal `completed` state. -/
def c3Done : Task :=
  { id := "t1", agentId := "a", capability := "c", state := .completed
    hasResult := true, createdAt := 1, updatedAt := 2, completedAt := 2 }

/-- The same record rewound to `pending` — an illegal transition out of
a terminal state. -/
def c3Pend : Task :=
  { id := "t1", agentId := "a", capability := "c", state := .pending
    hasResult := true, createdAt := 1, updatedAt := 3, completedAt := 2 }

/-- C3 counterexample: `MemoryStore.Update` accepts the terminal→pending
update of a stored completed task and overwrites the record, so the
claimed rejection of all transitions outside the legal state machine
does not hold of the store. -/
theorem c3_counterexample :
    c3Done.state.isTerminal = true ∧
    storeGet { tasks := [("t1", c3Done)] } "t1" = .ok c3Done ∧
    storeUpdate { tasks := [("t1", c3Done)] } c3Pend =
      .ok { tasks := [("t1", c3Pend)] } ∧
    c3Pend.state = .pending ∧
    c3Pend ≠ c3Done := by
  refine ⟨rfl, rfl, rfl, rfl, ?_⟩
  decide

/-- C3 (amended): `MemoryStore.Update` validates nothing about state
transitions: for a task whose id is stored — whatever the old and new
states, including updates of tasks already terminal — it replaces the
stored record with the argument and succeeds; the only rejected update
is one whose id is absent, which leaves the store unchanged.  The legal
state machine of the spec is not enforced by the store. -/
theorem c3_store_update_unvalidated (s : MemoryStore) (t : Task) :
    ((s.tasks.lookup t.id).isSome →
      storeUpdate s t = .ok { tasks := assocReplace s.tasks t.id t } ∧
      (assocReplace s.tasks t.id t).lookup t.id = some t) ∧
    (s.tasks.lookup t.id = none →
      storeUpdate s t = .error ("task " ++ t.id ++ " not found")) := by
  constructor
  · intro h
    exact ⟨by simp [storeUpdate, h], lookup_assocReplace s.tasks t.id t h⟩
  · intro h
    simp [storeUpdate, h]

/-- C3 witness: the amended theorem applied to the concrete
completed→pending overwrite. -/
theorem c3_witness :
    storeUpdate { tasks := [("t1", c3Done)] } c3Pend =
      .ok { tasks := assocReplace [("t1", c3Done)] c3Pend.id c3Pend } ∧
    (assocReplace [("t1", c3Done)] c3Pend.id c3Pend).lookup c3Pend.id = some c3Pend :=
  (c3_store_update_unvalidated { tasks := [("t1", c3Done)] } c3Pend).1 (by decide)

/-! ## C8: terminal events and their timestamps -/

@[simp]
theorem updateState_id (t : Task) (st : TaskState) (n : Nat) :
    (t.updateState st n).id = t.id := rfl

@[simp]
theorem setResult_id (t : Task) (n : Nat) : (t.setResult n).id = t.id := rfl

@[simp]
theorem setError_id (t : Task) (e : String) (n : Nat) : (t.setError e n).id = t.id := rfl

@[simp]
theorem cancel_id (t : Task) (r : String) (n : Nat) : (t.cancel r n).id = t.id := rfl

@[simp]
theorem setResult_completedAt (t : Task) (n : Nat) : (t.setResult n).completedAt = n := rfl

@[simp]
theorem setError_completedAt (t : Task) (e : String) (n : Nat) :
    (t.setError e n).completedAt = n := rfl

@[simp]
theorem cancel_completedAt (t : Task) (r : String) (n : Nat) :
    (t.cancel r n).completedAt = n := rfl

theorem storeUpdate_present (s : MemoryStore) (t : Task)
    (h : (s.tasks.lookup t.id).isSome) :
    storeUpdate s t = .ok { tasks := assocReplace s.tasks t.id t } := by
  simp [storeUpdate, h]

theorem lookup_isSome_after (s : MemoryStore) (t : Task)
    (h : (s.tasks.lookup t.id).isSome) :
    ((assocReplace s.tasks t.id t).lookup t.id).isSome = true := by
  rw [lookup_assocReplace s.tasks t.id t h]
  rfl

/-- The task created and completed in the C8 counterexample run: the
8-byte id survives the `task.ID[:8]` log slicing, and its first byte 97
makes the simulated execution succeed. -/
def c8T : Task := newTask "abcdefgh" "ag" "cap" 1

def c8TDone : Task := ((c8T.updateState .running 3).setResult 5)

/-- C8 counterexample: a concrete `processTask` run publishes exactly
one terminal event, but the timestamp of that event is the zero time (the
source never fills the `Timestamp` field of the published events) while
the `completed_at` of the stored task is the transition instant 5 — the
claimed equality `completed_at = event timestamp` is false. -/
theorem c8_counterexample :
    processTask { tasks := [("abcdefgh", c8T)] } c8T 3 5 =
      { store := { tasks := [("abcdefgh", c8TDone)] }
        events :=
          [{ taskId := "abcdefgh", state := .running, message := "Task started"
             timestamp := 0 },
           { taskId := "abcdefgh", state := .completed
             message := "Task completed successfully", timestamp := 0 }]
        panicked := false } ∧
    c8TDone.state.isTerminal = true ∧
    c8TDone.completedAt = 5 ∧
    (5 : Nat) ≠ 0 := by
  refine ⟨rfl, rfl, rfl, ?_⟩
  decide

/-- C8 (amended): for a stored task whose id has at least 8 bytes (all
real ids are 36-byte UUIDs), the background processor publishes exactly
one event carrying the terminal state (completed on simulated success,
failed otherwise), and the cancel handler publishes exactly one
cancelled event; but every published event carries the zero timestamp,
while the `completed_at` of the stored record is the terminal-transition
instant, so the two are equal only at the zero instant.  For an id
shorter than 8 bytes the processor panics at the `task.ID[:8]` log
slicing right after publishing the running event, and no terminal event
is published at all. -/
theorem c8_terminal_event (s : MemoryStore) (t : Task) (t1 t2 : Nat)
    (h : (s.tasks.lookup t.id).isSome) :
    (t.id.utf8ByteSize < 8 →
      (processTask s t t1 t2).panicked = true ∧
      (processTask s t t1 t2).events.filter (fun e => e.state.isTerminal) = []) ∧
    (8 ≤ t.id.utf8ByteSize →
      (processTask s t t1 t2).panicked = false ∧
      (processTask s t t1 t2).events.filter (fun e => e.state.isTerminal) =
        [{ taskId := t.id
           state := if successOf t.id then .completed else .failed
           message := if successOf t.id then "Task completed successfully" else "Task failed"
           timestamp := 0 }] ∧
      (∀ e ∈ (processTask s t t1 t2).events, e.timestamp = 0) ∧
      (((processTask s t t1 t2).store.tasks.lookup t.id).map Task.completedAt = some t2)) ∧
    (∀ (ast : A2AState) (tid : String) (now : Nat) (task : Task),
      storeGet ast.tasks tid = .ok task → task.id = tid →
      task.state.isTerminal = false →
      (handleCancelTask ast tid now).2.2 =
        [{ taskId := tid, state := .cancelled, message := "Task cancelled", timestamp := 0 }] ∧
      (((handleCancelTask ast tid now).2.1.tasks.tasks.lookup tid).map Task.completedAt
        = some now)) := by
  have e1 : storeUpdate s (t.updateState .running t1) =
      .ok { tasks := assocReplace s.tasks t.id (t.updateState .running t1) } :=
    storeUpdate_present s (t.updateState .running t1) h
  have e2ok : storeUpdate { tasks := assocReplace s.tasks t.id (t.updateState .running t1) }
      ((t.updateState .running t1).setResult t2) =
      .ok { tasks :=
              assocReplace (assocReplace s.tasks t.id (t.updateState .running t1)) t.id
                ((t.updateState .running t1).setResult t2) } :=
    storeUpdate_present _ _ (lookup_isSome_after s (t.updateState .running t1) h)
  have e2err : storeUpdate { tasks := assocReplace s.tasks t.id (t.updateState .running t1) }
      ((t.updateState .running t1).setError "Simulated task failure" t2) =
      .ok { tasks :=
              assocReplace (assocReplace s.tasks t.id (t.updateState .running t1)) t.id
                ((t.updateState .running t1).setError "Simulated task failure" t2) } :=
    storeUpdate_present _ _ (lookup_isSome_after s (t.updateState .running t1) h)
  have e3ok : (assocReplace (assocReplace s.tasks t.id (t.updateState .running t1))
      t.id ((t.updateState .running t1).setResult t2)).lookup t.id =
      some ((t.updateState .running t1).setResult t2) :=
    lookup_assocReplace _ _ _ (lookup_isSome_after s (t.updateState .running t1) h)
  have e3err : (assocReplace (assocReplace s.tasks t.id (t.updateState .running t1))
      t.id ((t.updateState .running t1).setError "Simulated task failure" t2)).lookup t.id =
      some ((t.updateState .running t1).setError "Simulated task failure" t2) :=
    lookup_assocReplace _ _ _ (lookup_isSome_after s (t.updateState .running t1) h)
  refine ⟨?_, ?_, ?_⟩
  · intro hlt
    constructor
    · simp only [processTask, e1, if_pos hlt]
    · simp only [processTask, e1, if_pos hlt]
      simp [TaskState.isTerminal]
  · intro hge
    have hnlt : ¬(t.id.utf8ByteSize < 8) := by omega
    refine ⟨?_, ?_, ?_, ?_⟩
    · by_cases hs : successOf t.id
      · simp only [processTask, e1, if_neg hnlt, hs, if_true, e2ok]
      · simp only [processTask, e1, if_neg hnlt, hs, Bool.false_eq_true, if_false, e2err]
    · by_cases hs : successOf t.id
      · simp only [processTask, e1, if_neg hnlt, hs, if_true, e2ok]
        simp [TaskState.isTerminal]
      · simp only [processTask, e1, if_neg hnlt, hs, Bool.false_eq_true, if_false, e2err]
        simp [TaskState.isTerminal]
    · by_cases hs : successOf t.id
      · simp only [processTask, e1, if_neg hnlt, hs, if_true, e2ok]
        intro e he
        fin_cases he <;> rfl
      · simp only [processTask, e1, if_neg hnlt, hs, Bool.false_eq_true, if_false, e2err]
        intro e he
        fin_cases he <;> rfl
    · by_cases hs : successOf t.id
      · simp only [processTask, e1, if_neg hnlt, hs, if_true, e2ok]
        rw [e3ok]
        rfl
      · simp only [processTask, e1, if_neg hnlt, hs, Bool.false_eq_true, if_false, e2err]
        rw [e3err]
        rfl
  · intro ast tid now task hget htid hterm
    have hlk : ast.tasks.tasks.lookup tid = some task := by
      unfold storeGet at hget
      rcases hE : List.lookup tid ast.tasks.tasks with _ | t0
      · rw [hE] at hget
        cases hget
      · rw [hE] at hget
        cases hget
        rfl
    have hpresent : ((ast.tasks.tasks.lookup (task.cancel "Cancelled by user" now).id)).isSome := by
      rw [cancel_id, htid, hlk]
      rfl
    have hup : storeUpdate ast.tasks (task.cancel "Cancelled by user" now) =
        .ok { tasks := assocReplace ast.tasks.tasks tid (task.cancel "Cancelled by user" now) } := by
      have := storeUpdate_present ast.tasks (task.cancel "Cancelled by user" now) hpresent
      rw [this]
      rw [cancel_id, htid]
    have hfin : (assocReplace ast.tasks.tasks tid (task.cancel "Cancelled by user" now)).lookup tid =
        some (task.cancel "Cancelled by user" now) := by
      have := lookup_assocReplace ast.tasks.tasks (task.cancel "Cancelled by user" now).id
        (task.cancel "Cancelled by user" now) (by rw [cancel_id, htid, hlk]; rfl)
      rw [cancel_id, htid] at this
      exact this
    constructor
    · simp only [handleCancelTask, hget, hterm, Bool.false_eq_true, if_false, hup]
    · simp only [handleCancelTask, hget, hterm, Bool.false_eq_true, if_false, hup]
      rw [hfin]
      rfl

/-- C8 witness: the amended theorem at the concrete counterexample run,
whose id clears the 8-byte slicing and simulates success. -/
theorem c8_witness :
    successOf c8T.id = true ∧
    ((processTask { tasks := [("abcdefgh", c8T)] } c8T 3 5).events.filter
        (fun e => e.state.isTerminal)) =
      [{ taskId := c8T.id
         state := if successOf c8T.id then .completed else .failed
         message := if successOf c8T.id then "Task completed successfully" else "Task failed"
         timestamp := 0 }] ∧
    (((processTask { tasks := [("abcdefgh", c8T)] } c8T 3 5).store.tasks.lookup
        c8T.id).map Task.completedAt = some 5) := by
  have hmain := (c8_terminal_event { tasks := [("abcdefgh", c8T)] } c8T 3 5
    (by decide)).2.1 (by decide)
  exact ⟨by decide, hmain.2.1, hmain.2.2.2⟩


/-! ## C9: no 2·N oversampling exists in either hybrid variant -/

theorem rankedBy_length (f : Doc → ℚ) (l : List Doc) : (rankedBy f l).length = l.length :=
  (List.perm_insertionSort (fun a b => f b ≤ f a) l).length_eq

/-- A five-document corpus for tenant `T`, all matching the text query
and all carrying embeddings. -/
def c9Docs : List Doc :=
  [ { id := "1", tenantId := "T", title := "a", content := "x", hasEmbedding := true }
  , { id := "2", tenantId := "T", title := "b", content := "x", hasEmbedding := true }
  , { id := "3", tenantId := "T", title := "c", content := "x", hasEmbedding := true }
  , { id := "4", tenantId := "T", title := "d", content := "x", hasEmbedding := true }
  , { id := "5", tenantId := "T", title := "e", content := "x", hasEmbedding := true } ]

def c9Env : DbEnv :=
  { docs := c9Docs, textMatch := fun _ => true, bm25 := fun _ => 0, vecSim := fun _ => 0 }

/-- C9 counterexample: with requested limit `N = 1` over five eligible
documents, the lexical and vector sub-queries of the RRF variant each
rank all five candidates — not `2·N = 2` — and the weighted variant is
a single-pass query with no sub-query fetch at all; only the fused
output is cut to `N`. -/
theorem c9_counterexample :
    (bm25Results c9Env "T").length = 5 ∧
    (vectorResults c9Env "T").length = 5 ∧
    normLimit 1 = 1 ∧
    ¬((bm25Results c9Env "T").length = 2 * normLimit 1) ∧
    ¬((vectorResults c9Env "T").length = 2 * normLimit 1) := by
  refine ⟨rfl, rfl, rfl, by decide, by decide⟩

/-- C9 (amended): neither hybrid variant oversamples at `2·N`: the two
sub-queries of the RRF variant rank every eligible row (all text
matches, respectively all embedded rows) with no per-sub-query limit,
the weighted variant scores every candidate row in one pass, and only
the fused result list is truncated, to the normalized limit. -/
theorem c9_subqueries_unbounded (env : DbEnv) (tenantID : String)
    (p : HybridSearchParams) :
    (bm25Results env tenantID).length =
      ((visibleDocs env tenantID).filter env.textMatch).length ∧
    (vectorResults env tenantID).length =
      ((visibleDocs env tenantID).filter (fun d => d.hasEmbedding)).length ∧
    (hybridSearch env tenantID p).length ≤ normLimit p.limit ∧
    (simpleHybridSearch env tenantID p).length ≤ normLimit p.limit := by
  refine ⟨rankedBy_length _ _, rankedBy_length _ _, ?_, ?_⟩
  · exact List.length_take_le _ _
  · exact List.length_take_le _ _

/-! ## C6: fixed-window rate limiting -/

theorem lookup_assocSet (l : List (String × Nat)) (k : String) (v : Nat) :
    (assocSet l k v).lookup k = some v := by
  unfold assocSet
  split_ifs with h
  · exact lookup_assocReplace l k v h
  · simp [List.lookup]

theorem checkLimit_counters (st : RedisState) (tenant : String) (now limit : Nat) :
    (checkLimit st tenant now limit).2.counters =
      assocSet st.counters (rateKey tenant now)
        (((st.counters.lookup (rateKey tenant now)).getD 0) + 1) := by
  simp only [checkLimit, redisIncr, redisExpire]
  split
  · rfl
  · rfl

theorem allowedRun_spec (tenant : String) (now limit : Nat) :
    ∀ (k : Nat) (st : RedisState) (c : Nat),
      (st.counters.lookup (rateKey tenant now)).getD 0 = c →
      allowedRun st tenant now limit k =
        (List.range k).map (fun j => decide (c + j + 1 ≤ limit)) := by
  intro k
  induction k with
  | zero =>
    intro st c _
    rfl
  | succ n ih =>
    intro st c hc
    have hcount : ((checkLimit st tenant now limit).2.counters.lookup
        (rateKey tenant now)).getD 0 = c + 1 := by
      rw [checkLimit_counters, lookup_assocSet]
      simp [hc]
    have hstep : allowedRun st tenant now limit (n + 1) =
        decide (c + 1 ≤ limit) :: allowedRun (checkLimit st tenant now limit).2
          tenant now limit n := by
      simp only [allowedRun, checkLimit, redisIncr, hc]
    rw [hstep, ih (checkLimit st tenant now limit).2 (c + 1) hcount,
      List.range_succ_eq_map, List.map_cons, List.map_map]
    refine congrArg₂ _ (decide_eq_decide.mpr (by omega)) ?_
    refine congrArg₂ _ ?_ rfl
    funext j
    exact decide_eq_decide.mpr (by omega)

theorem range_map_verdicts (limit : Nat) :
    (List.range (limit + 1)).map (fun j => decide (0 + j + 1 ≤ limit)) =
      List.replicate limit true ++ [false] := by
  rw [List.range_succ, List.map_append]
  refine congrArg₂ _ ?_ ?_
  · refine List.eq_replicate_iff.mpr ⟨by simp, ?_⟩
    intro b hb
    simp only [List.mem_map, List.mem_range] at hb
    rcases hb with ⟨j, hj, rfl⟩
    simp only [decide_eq_true_eq]
    omega
  · simp only [List.map_cons, List.map_nil]
    refine congrArg₂ _ ?_ rfl
    simp only [decide_eq_false_iff_not]
    omega

/-- C6: the limiter builds the key
`ratelimit:<tenant>:<floor(now/60)>`, increments that counter by one,
sets the window TTL exactly when the incremented value is 1, and admits
iff the new value is at most the limit; consequently, starting from an
untouched window, the first N requests of a tenant are admitted and the
(N+1)-th is denied. -/
theorem c6_rate_limiter (st : RedisState) (tenant : String) (now limit : Nat) :
    rateKey tenant now = "ratelimit:" ++ tenant ++ ":" ++ toString (now / 60) ∧
    ((checkLimit st tenant now limit).2.counters.lookup (rateKey tenant now) =
      some (((st.counters.lookup (rateKey tenant now)).getD 0) + 1)) ∧
    ((checkLimit st tenant now limit).2.ttls =
      (if ((st.counters.lookup (rateKey tenant now)).getD 0) + 1 = 1
       then assocSet st.ttls (rateKey tenant now) rateWindowSecs
       else st.ttls)) ∧
    ((checkLimit st tenant now limit).1 =
      decide (((st.counters.lookup (rateKey tenant now)).getD 0) + 1 ≤ limit)) ∧
    (st.counters.lookup (rateKey tenant now) = none →
      allowedRun st tenant now limit (limit + 1) =
        List.replicate limit true ++ [false]) := by
  refine ⟨rfl, ?_, ?_, rfl, ?_⟩
  · rw [checkLimit_counters]
    exact lookup_assocSet _ _ _
  · simp only [checkLimit, redisIncr, redisExpire]
    split_ifs with h1
    · rfl
    · rfl
  · intro hnone
    rw [allowedRun_spec tenant now limit (limit + 1) st 0 (by rw [hnone]; rfl)]
    exact range_map_verdicts limit

/-- C6 witness (scenario E4): limit 3, empty counter store — four
requests in one window give admit, admit, admit, deny. -/
theorem c6_witness :
    allowedRun {} "tenantC" 0 3 (3 + 1) = List.replicate 3 true ++ [false] :=
  (c6_rate_limiter {} "tenantC" 0 3).2.2.2.2 rfl

/-! ## C1: behaviour of the /mcp stack without an Authorization header -/

/-- An environment with an empty corpus for the C1 run. -/
def plainEnv : DbEnv :=
  { docs := [], textMatch := fun _ => false, bm25 := fun _ => 0, vecSim := fun _ => 0 }

/-- C1 counterexample: a `tools/list` request with no `Authorization`
header travels through `OptionalHandler` (which forwards it without an
auth context), skips the rate limiter, and succeeds with HTTP 200 and
the full tool list — not the claimed authentication-required error with
HTTP 401. -/
theorem c1_counterexample :
    (mcpServe plainEnv { issuer := "iss", audience := "aud" } 100 {} 0 none
      { jsonrpc := "2.0", id := some "1", method := "tools/list" }).status = 200 ∧
    (mcpServe plainEnv { issuer := "iss", audience := "aud" } 100 {} 0 none
      { jsonrpc := "2.0", id := some "1", method := "tools/list" }).resp.error = none ∧
    (mcpServe plainEnv { issuer := "iss", audience := "aud" } 100 {} 0 none
      { jsonrpc := "2.0", id := some "1", method := "tools/list" }).resp.result =
      some (.toolsList registeredToolDefs) :=
  ⟨rfl, rfl, rfl⟩

theorem registryExecute_no_tenant (env : DbEnv) (ctx : Ctx) (hctx : ctx.tenant = none)
    (name : String) (args : ToolArgs) :
    ∃ msg, registryExecute env ctx name args = .error msg := by
  unfold registryExecute
  split_ifs with h1 h2 h3 h4
  · exact ⟨"authentication required: tenant_id not found in context",
      by simp [searchToolExecute, extractTenantID, hctx]⟩
  · exact ⟨"authentication required: tenant_id not found in context",
      by simp [retrieveToolExecute, extractTenantID, hctx]⟩
  · exact ⟨"authentication required: tenant_id not found in context",
      by simp [listToolExecute, extractTenantID, hctx]⟩
  · exact ⟨"authentication required: tenant_id not found in context",
      by simp [hybridToolExecute, extractTenantID, hctx]⟩
  · exact ⟨"tool not found: " ++ name, rfl⟩

/-- C1 (amended): a present-but-invalid `Authorization` header is
answered by the middleware with the authentication-required code at
HTTP 401; but a request with no header at all is forwarded without a
principal, where `initialize` and `tools/list` both succeed (HTTP 200,
no error), and `tools/call` always fails — delivered at HTTP 200 as an
invalid-params or internal error, because tool execution cannot find a
tenant in the context.  `initialize` is therefore not the only method
that succeeds without a valid principal. -/
theorem c1_no_header_forwarded (env : DbEnv) (v : ValidatorCfg) (limit : Nat)
    (st : RedisState) (now : Nat) (req : Request) :
    (∀ (tok : Token) (e : String), validateToken v (now : Int) tok = .error e →
      mcpServe env v limit st now (some tok) req =
        { status := 401
          resp := NewErrorResponse none AuthenticationRequired ("Invalid token: " ++ e)
          redis := st }) ∧
    (req.validates = true → req.method = "tools/list" →
      (mcpServe env v limit st now none req).status = 200 ∧
      (mcpServe env v limit st now none req).resp.error = none) ∧
    (req.validates = true → req.method = "initialize" → req.params ≠ .malformed →
      (mcpServe env v limit st now none req).status = 200 ∧
      (mcpServe env v limit st now none req).resp.error = none) ∧
    (req.validates = true → req.method = "tools/call" →
      (mcpServe env v limit st now none req).status = 200 ∧
      ∃ err, (mcpServe env v limit st now none req).resp.error = some err ∧
        (err.code = InvalidParams ∨ err.code = InternalError)) := by
  have base : mcpServe env v limit st now none req =
      { status := sendResponseStatus (mcpHandle env {} req)
        resp := mcpHandle env {} req, redis := st } := rfl
  refine ⟨?_, ?_, ?_, ?_⟩
  · intro tok e he
    simp only [mcpServe, he]
  · intro hv hm
    have hh : mcpHandle env {} req = NewResponse req.id (.toolsList registeredToolDefs) := by
      simp [mcpHandle, hv, handleRequest, hm, handleToolsList]
    rw [base, hh]
    exact ⟨rfl, rfl⟩
  · intro hv hm hp
    have hh : mcpHandle env {} req =
        NewResponse req.id (.initResult MCPProtocolVersion ServerName ServerVersion false) := by
      rcases hq : req.params with _ | tc | _
      · simp [mcpHandle, hv, handleRequest, hm, handleInit, hq]
      · simp [mcpHandle, hv, handleRequest, hm, handleInit, hq]
      · exact absurd hq hp
    rw [base, hh]
    exact ⟨rfl, rfl⟩
  · intro hv hm
    have hcall : mcpHandle env {} req = handleToolsCall env {} req := by
      simp [mcpHandle, hv, handleRequest, hm]
    rcases hq : req.params with _ | tc | _
    · rcases registryExecute_no_tenant env {} rfl "" {} with ⟨msg, hmsg⟩
      have hh : mcpHandle env {} req =
          NewErrorResponse req.id InternalError ("Tool execution failed: " ++ msg) := by
        rw [hcall]
        simp [handleToolsCall, hq, parseToolCallParams, hmsg]
      rw [base, hh]
      exact ⟨rfl, ⟨_, rfl, Or.inr rfl⟩⟩
    · rcases registryExecute_no_tenant env {} rfl tc.name tc.arguments with ⟨msg, hmsg⟩
      have hh : mcpHandle env {} req =
          NewErrorResponse req.id InternalError ("Tool execution failed: " ++ msg) := by
        rw [hcall]
        simp [handleToolsCall, hq, parseToolCallParams, hmsg]
      rw [base, hh]
      exact ⟨rfl, ⟨_, rfl, Or.inr rfl⟩⟩
    · have hh : mcpHandle env {} req =
          NewErrorResponse req.id InvalidParams
            ("Invalid tool call params: " ++ "failed to parse params") := by
        rw [hcall]
        simp [handleToolsCall, hq, parseToolCallParams]
      rw [base, hh]
      exact ⟨rfl, ⟨_, rfl, Or.inl rfl⟩⟩

/-- C1 witness: the amended theorem at a concrete headerless
`tools/list` request and a concrete headerless `tools/call` request. -/
theorem c1_witness :
    ((mcpServe plainEnv { issuer := "iss", audience := "aud" } 100 {} 0 none
      { jsonrpc := "2.0", id := some "2", method := "tools/list" }).status = 200 ∧
    (mcpServe plainEnv { issuer := "iss", audience := "aud" } 100 {} 0 none
      { jsonrpc := "2.0", id := some "2", method := "tools/list" }).resp.error = none) ∧
    ((mcpServe plainEnv { issuer := "iss", audience := "aud" } 100 {} 0 none
      { jsonrpc := "2.0", id := some "3", method := "tools/call" }).status = 200 ∧
    ∃ err, (mcpServe plainEnv { issuer := "iss", audience := "aud" } 100 {} 0 none
        { jsonrpc := "2.0", id := some "3", method := "tools/call" }).resp.error = some err ∧
      (err.code = InvalidParams ∨ err.code = InternalError)) :=
  ⟨(c1_no_header_forwarded plainEnv { issuer := "iss", audience := "aud" } 100 {} 0
      { jsonrpc := "2.0", id := some "2", method := "tools/list" }).2.1 rfl rfl,
   (c1_no_header_forwarded plainEnv { issuer := "iss", audience := "aud" } 100 {} 0
      { jsonrpc := "2.0", id := some "3", method := "tools/call" }).2.2.2 rfl rfl⟩

/-! ## C7: a missing or foreign-tenant document retrieval -/

/-- Corpus holding one document owned by tenant `B`. -/
def c7Env : DbEnv :=
  { docs := [{ id := "d1", tenantId := "B", title := "t", content := "c" }]
    textMatch := fun _ => false, bm25 := fun _ => 0, vecSim := fun _ => 0 }

/-- A valid token for tenant `A`. -/
def c7Tok : Token :=
  { wellFormedRSA := true, issuer := "iss", audience := ["aud"], tenantId := "A"
    userId := "u" }

/-- `tools/call` of `retrieve_document` for the document of tenant B. -/
def c7Req : Request :=
  { jsonrpc := "2.0", id := some "9", method := "tools/call"
    params := .toolCall { name := "retrieve_document"
                          arguments := { documentId := some "d1" } } }

/-- C7 counterexample: tenant A retrieving the document of tenant B gets a
JSON-RPC error whose code is internal error (-32603) delivered at HTTP
200 — not the claimed resource-not-found (-32004) with HTTP 404.  The
`GetDocument` failure itself is real (row-level security hides the
row), but `handleToolsCall` wraps every tool failure as an internal
error, and no code path produces -32004. -/
theorem c7_counterexample :
    (mcpServe c7Env { issuer := "iss", audience := "aud" } 100 {} 0 (some c7Tok)
      c7Req).status = 200 ∧
    ((mcpServe c7Env { issuer := "iss", audience := "aud" } 100 {} 0 (some c7Tok)
      c7Req).resp.error).map RpcError.code = some InternalError ∧
    ¬((mcpServe c7Env { issuer := "iss", audience := "aud" } 100 {} 0 (some c7Tok)
      c7Req).status = 404) ∧
    ¬(((mcpServe c7Env { issuer := "iss", audience := "aud" } 100 {} 0 (some c7Tok)
      c7Req).resp.error).map RpcError.code = some ResourceNotFound) := by
  refine ⟨rfl, rfl, by decide, by decide⟩

/-- C7 (amended): a `tools/call` retrieval of a document that is absent
or owned by another tenant fails — `GetDocument` cannot see the row —
but the failure surfaces as the internal-error code (-32603) with the
error delivered at HTTP 200; the resource-not-found code (-32004) and
HTTP 404, though wired into `sendResponse`, are never produced by this
path. -/
theorem c7_retrieve_not_found_surfaces_internal (env : DbEnv) (ctx : Ctx) (req : Request)
    (tenantID docID : String) (args : ToolArgs)
    (hctx : ctx.tenant = some tenantID) (ht : tenantID ≠ "")
    (hp : req.params = .toolCall { name := "retrieve_document", arguments := args })
    (ha : args.documentId = some docID) (hd : docID ≠ "")
    (hnone : (visibleDocs env tenantID).find? (fun d => d.id = docID) = none) :
    handleToolsCall env ctx req =
      NewErrorResponse req.id InternalError
        "Tool execution failed: failed to retrieve document: document not found" ∧
    sendResponseStatus (handleToolsCall env ctx req) = 200 := by
  have hmain : handleToolsCall env ctx req = NewErrorResponse req.id InternalError
      "Tool execution failed: failed to retrieve document: document not found" := by
    simp [handleToolsCall, hp, parseToolCallParams, registryExecute, retrieveToolExecute,
      extractTenantID, hctx, ht, getDocument, hnone, ha, hd]
  refine ⟨hmain, ?_⟩
  rw [hmain]
  rfl

/-- C7 witness: the amended theorem at the concrete cross-tenant
retrieval. -/
theorem c7_witness :
    handleToolsCall c7Env { tenant := some "A" } c7Req =
      NewErrorResponse (some "9") InternalError
        "Tool execution failed: failed to retrieve document: document not found" ∧
    sendResponseStatus (handleToolsCall c7Env { tenant := some "A" } c7Req) = 200 :=
  c7_retrieve_not_found_surfaces_internal c7Env { tenant := some "A" } c7Req "A" "d1"
    { documentId := some "d1" } rfl (by decide) rfl rfl (by decide) rfl

end MCPA2A
